import Mathlib

/-!
# A shallow embedding of `censorjs` (`src/censor.js`)

This file embeds the interception engine of the censorjs library into Lean:

* `JsVal` — JavaScript values.  Function values are defunctionalized: each
  closure shape occurring in `src/censor.js` (the `whenCall` wrapper, the
  context callbacks, the `whenAttr` accessor wrappers, …) is a constructor,
  as are the concrete user handles used by the test scenarios.  Opaque host
  ("native") functions are modelled by an environment
  `NativeEnv : Nat → JsVal → List JsVal → JsVal` mapping (function id,
  `this`, arguments) to the returned value; natives are pure.
* `StoredProp` / `Descriptor` — complete own properties vs. (partial)
  property descriptors, with `defineProperty` implementing the ECMAScript
  `ValidateAndApplyPropertyDescriptor` merge semantics, `getProp` the
  ordinary Get (accessors run with the original receiver) and `setProp`
  the ordinary sloppy-mode Set (failed writes are silent no-ops).
* `Heap` — the mutable store: JS objects (association lists of named
  properties plus a prototype link) and `CensorContext` instances.
* `JsM` — a state+error monad: `Heap → Except JsError α × Heap`.  A throw
  preserves the heap, mirroring that a JS exception does not roll back
  earlier mutations.
* `applyFn` — the fuel-bounded interpreter giving each defunctionalized
  closure the semantics of its source counterpart, and on top of it the
  engine operations `whenCall`, `whenAttr`, `getPropertyDescriptor`,
  `censor` translated line by line from `src/censor.js`.

Promises are modelled by the `JsVal.prom` constructor (a resolved promise);
`awaitV` unwraps it.  `Symbol.toStringTag` of async functions is modelled by
`toStringTag`.  Event interception (`on`) and `CensorClass.genFunc`
application are not exercised by any theorem below and are left out of the
interpreter (applying a generated constructor is mapped to a type error).
-/

/-- Errors of the embedded fragment: JavaScript `TypeError`s (the only
exception kind `censor.js` raises or runs into) and fuel exhaustion of the
interpreter. -/
inductive JsError where
  | typeError (msg : String)
  | outOfFuel
deriving DecidableEq, Repr

/-- JavaScript values.  Function-typed values are defunctionalized closure
shapes; `obj` and `ctxv` are references into the heap. -/
inductive JsVal where
  | undefined
  | null
  | bool (b : Bool)
  | num (n : Int)
  | str (s : String)
  /-- reference to an ordinary object in the heap -/
  | obj (r : Nat)
  /-- reference to a `CensorContext` instance in the heap -/
  | ctxv (r : Nat)
  /-- a resolved promise carrying its resolution value -/
  | prom (v : JsVal)
  /-- the built-in `Object` constructor (used by `getPropertyDescriptor`'s
  `obj.constructor !== Object` test) -/
  | objectCtor
  /-- an opaque host function: name, async flag, semantics id (interpreted
  by a `NativeEnv`) -/
  | native (nm : String) (isAsync : Bool) (k : Nat)
  /-- the replacement installed by `whenCall` (censor.js:211/216):
  `(...args) => { ctx.args = args; return handle(ctx, ...args) }`,
  `async` when the flag is set -/
  | callWrapper (ctxRef : Nat) (handle : JsVal) (isAsync : Bool)
  /-- `ctx.callback` set by `whenCall` (censor.js:206):
  `(...args) => this.call(name, ...args)` -/
  | callCallback (target : JsVal) (name : String)
  /-- the getter installed by `whenAttr` (censor.js:248) -/
  | attrGetWrapper (ctxRef : Nat) (target : JsVal) (name : String) (handles : JsVal)
  /-- the setter installed by `whenAttr` (censor.js:255) -/
  | attrSetWrapper (ctxRef : Nat) (target : JsVal) (name : String) (handles : JsVal)
  /-- `context.callback` set inside the `whenAttr` getter (censor.js:250):
  `() => originalObject.getAttr(name)` -/
  | getAttrCallback (target : JsVal) (name : String)
  /-- `context.callback` set inside the `whenAttr` setter (censor.js:257):
  `(_asgn) => originalObject.setAttr(name, _asgn)` -/
  | setAttrCallback (target : JsVal) (name : String)
  /-- the replacement constructor returned by `CensorClass.genFunc`
  (censor.js:389); never applied in the developments below -/
  | genFuncVal (cls : JsVal) (nm : String)
  /-- user handle `(ctx, ...rest) => ctx.pass()` -/
  | passHandle
  /-- user handle `(ctx) => ctx` (returns the received context) -/
  | reportCtx
  /-- user handle `async (ctx) => { const r = await ctx.pass(); return r + 1 }`
  (numeric transform of the awaited pass-through) -/
  | asyncPassIncr
deriving DecidableEq, Repr

/-- Semantics of opaque host functions: id ↦ `this` ↦ args ↦ result. -/
abbrev NativeEnv := Nat → JsVal → List JsVal → JsVal

/-- `typeof v`. -/
def jsTypeof : JsVal → String
  | .undefined => "undefined"
  | .null => "object"
  | .bool _ => "boolean"
  | .num _ => "number"
  | .str _ => "string"
  | .obj _ => "object"
  | .ctxv _ => "object"
  | .prom _ => "object"
  | .objectCtor => "function"
  | .native _ _ _ => "function"
  | .callWrapper _ _ _ => "function"
  | .callCallback _ _ => "function"
  | .attrGetWrapper _ _ _ _ => "function"
  | .attrSetWrapper _ _ _ _ => "function"
  | .getAttrCallback _ _ => "function"
  | .setAttrCallback _ _ => "function"
  | .genFuncVal _ _ => "function"
  | .passHandle => "function"
  | .reportCtx => "function"
  | .asyncPassIncr => "function"

/-- `v[Symbol.toStringTag]`, as used by censor.js:210 to recognize async
functions: `"AsyncFunction"` exactly for async function values. -/
def toStringTag : JsVal → JsVal
  | .native _ true _ => .str "AsyncFunction"
  | .callWrapper _ _ true => .str "AsyncFunction"
  | .asyncPassIncr => .str "AsyncFunction"
  | _ => .undefined

/-- `await v`: unwrap (nested) resolved promises. -/
def awaitV : JsVal → JsVal
  | .prom v => awaitV v
  | v => v

/-- Numeric coercion used by the `asyncPassIncr` test handle. -/
def toNum : JsVal → Int
  | .num n => n
  | _ => 0

/-- `f.name` (used by the `CensorClass` constructor, censor.js:337). -/
def fnName : JsVal → String
  | .native nm _ _ => nm
  | .objectCtor => "Object"
  | _ => ""

/-- `v instanceof Object`, for values with the standard prototype chains
(all objects and functions of our scenarios). -/
def jsInstanceOfObject : JsVal → Bool
  | .undefined => false
  | .null => false
  | .bool _ => false
  | .num _ => false
  | .str _ => false
  | _ => true

/-- A complete own property of an object: either a data property or an
accessor property (ECMAScript property records). -/
inductive StoredProp where
  | data (value : JsVal) (writable enumerable configurable : Bool)
  | accessor (get set : JsVal) (enumerable configurable : Bool)
deriving DecidableEq, Repr

def StoredProp.configurable : StoredProp → Bool
  | .data _ _ _ c => c
  | .accessor _ _ _ c => c

def StoredProp.enumerable : StoredProp → Bool
  | .data _ _ e _ => e
  | .accessor _ _ e _ => e

/-- A (partial) property descriptor, as passed to `Object.defineProperty`
and returned by `Object.getOwnPropertyDescriptor`: absent fields are
`none`. -/
structure Descriptor where
  value : Option JsVal
  writable : Option Bool
  get : Option JsVal
  set : Option JsVal
  enumerable : Option Bool
  configurable : Option Bool
deriving DecidableEq, Repr

/-- The all-absent descriptor (JS `{}`). -/
def Descriptor.empty : Descriptor :=
  ⟨none, none, none, none, none, none⟩

def Descriptor.isAccessor (d : Descriptor) : Bool :=
  d.get.isSome || d.set.isSome

def Descriptor.isData (d : Descriptor) : Bool :=
  d.value.isSome || d.writable.isSome

/-- `Object.getOwnPropertyDescriptor` on a stored property. -/
def StoredProp.toDescriptor : StoredProp → Descriptor
  | .data v w e c => ⟨some v, some w, none, none, some e, some c⟩
  | .accessor g s e c => ⟨none, none, some g, some s, some e, some c⟩

/-- Merge a descriptor into an existing property (the "apply" part of
ECMAScript `ValidateAndApplyPropertyDescriptor`: fields present in the
descriptor replace the current attributes, absent fields keep them; a kind
change rebuilds the property with defaults for the other kind's fields). -/
def applyDescMerge (cur : StoredProp) (d : Descriptor) : StoredProp :=
  match cur with
  | .data v w e c =>
      if d.isAccessor then
        .accessor (d.get.getD .undefined) (d.set.getD .undefined)
          (d.enumerable.getD e) (d.configurable.getD c)
      else
        .data (d.value.getD v) (d.writable.getD w)
          (d.enumerable.getD e) (d.configurable.getD c)
  | .accessor g s e c =>
      if d.isData then
        .data (d.value.getD .undefined) (d.writable.getD false)
          (d.enumerable.getD e) (d.configurable.getD c)
      else
        .accessor (d.get.getD g) (d.set.getD s)
          (d.enumerable.getD e) (d.configurable.getD c)

/-- The validation part of `ValidateAndApplyPropertyDescriptor` for a
non-configurable current property: `true` when the redefinition is
allowed. -/
def validateNonConfigurable (cur : StoredProp) (d : Descriptor) : Bool :=
  if d.configurable = some true then false
  else if (match d.enumerable with
           | some b => b != cur.enumerable
           | none => false) then false
  else if !d.isAccessor && !d.isData then true
  else
    match cur with
    | .data v w _ _ =>
        if d.isAccessor then false
        else if w then true
        else if d.writable = some true then false
        else (match d.value with | some nv => nv = v | none => true)
    | .accessor g s _ _ =>
        if d.isData then false
        else (match d.get with | some ng => ng = g | none => true)
          && (match d.set with | some ns => ns = s | none => true)

/-- An ordinary JS object: named own properties and a prototype link
(`none` = `null` prototype). -/
structure JsObject where
  props : List (String × StoredProp)
  proto : Option Nat
deriving DecidableEq, Repr

/-- A `CensorContext` instance (censor.js:37-85): `name` and `parent` are
set by the constructor; `args` and `callback` start `undefined` and are
mutated by the installed wrappers.  `parentObj` stores the `object` field
of the owning `CensorObject`. -/
structure CtxObj where
  name : String
  parentObj : JsVal
  args : Option (List JsVal)
  callback : JsVal
deriving DecidableEq, Repr

/-- The mutable store: ordinary objects and context instances. -/
structure Heap where
  objs : List (Nat × JsObject)
  ctxs : List (Nat × CtxObj)
  nextCtx : Nat
deriving DecidableEq, Repr

def assocGet {β : Type} : List (String × β) → String → Option β
  | [], _ => none
  | (k, v) :: rest, key => if k = key then some v else assocGet rest key

def assocSet {β : Type} : List (String × β) → String → β → List (String × β)
  | [], key, v => [(key, v)]
  | (k, w) :: rest, key, v =>
      if k = key then (key, v) :: rest else (k, w) :: assocSet rest key v

def natAssocGet {β : Type} : List (Nat × β) → Nat → Option β
  | [], _ => none
  | (k, v) :: rest, key => if k = key then some v else natAssocGet rest key

def natAssocSet {β : Type} : List (Nat × β) → Nat → β → List (Nat × β)
  | [], key, v => [(key, v)]
  | (k, w) :: rest, key, v =>
      if k = key then (key, v) :: rest else (k, w) :: natAssocSet rest key v

def Heap.findObj (h : Heap) (r : Nat) : Option JsObject :=
  natAssocGet h.objs r

def Heap.findCtx (h : Heap) (r : Nat) : Option CtxObj :=
  natAssocGet h.ctxs r

/-- Replace / insert the own property `name` of object `r`. -/
def Heap.setOwn (h : Heap) (r : Nat) (name : String) (p : StoredProp) : Heap :=
  match h.findObj r with
  | none => h
  | some o =>
      { h with objs := natAssocSet h.objs r { o with props := assocSet o.props name p } }

def JsObject.getOwn (o : JsObject) (name : String) : Option StoredProp :=
  assocGet o.props name

/-- `Object.defineProperty(object r, name, d)` (ECMAScript
`ValidateAndApplyPropertyDescriptor`; the object is always extensible).
A throw leaves the heap unchanged (the caller keeps its heap). -/
def defineProperty (h : Heap) (r : Nat) (name : String) (d : Descriptor) :
    Except JsError Heap :=
  match h.findObj r with
  | none => .error (.typeError "defineProperty on a dangling reference")
  | some o =>
      match o.getOwn name with
      | none =>
          let p : StoredProp :=
            if d.isAccessor then
              .accessor (d.get.getD .undefined) (d.set.getD .undefined)
                (d.enumerable.getD false) (d.configurable.getD false)
            else
              .data (d.value.getD .undefined) (d.writable.getD false)
                (d.enumerable.getD false) (d.configurable.getD false)
          .ok (h.setOwn r name p)
      | some cur =>
          if cur.configurable then .ok (h.setOwn r name (applyDescMerge cur d))
          else if validateNonConfigurable cur d then
            .ok (h.setOwn r name (applyDescMerge cur d))
          else .error (.typeError ("Cannot redefine property: " ++ name))

/-- The interpreter monad: state (the heap) plus JS exceptions.  A throw
keeps the heap reached so far — a JavaScript exception does not undo
earlier mutations. -/
def JsM (α : Type) : Type := Heap → Except JsError α × Heap

def JsM.pure {α : Type} (a : α) : JsM α := fun h => (.ok a, h)

def JsM.bind {α β : Type} (m : JsM α) (f : α → JsM β) : JsM β := fun h =>
  match m h with
  | (.ok a, h') => f a h'
  | (.error e, h') => (.error e, h')

instance : Monad JsM where
  pure := JsM.pure
  bind := JsM.bind

/-- Raise a JS exception (heap preserved). -/
def throwJs {α : Type} (e : JsError) : JsM α := fun h => (.error e, h)

/-- Lift a heap-independent `Except` computation. -/
def liftEx {α : Type} (e : Except JsError α) : JsM α := fun h => (e, h)

def getObjM (r : Nat) : JsM JsObject := fun h =>
  match h.findObj r with
  | some o => (.ok o, h)
  | none => (.error (.typeError "dangling object reference"), h)

def getCtxM (r : Nat) : JsM CtxObj := fun h =>
  match h.findCtx r with
  | some c => (.ok c, h)
  | none => (.error (.typeError "dangling context reference"), h)

def modifyHeap (f : Heap → Heap) : JsM Unit := fun h => (.ok (), f h)

/-- `ctx.args = v` (a plain field write on a `CensorContext` instance). -/
def updateCtxArgs (r : Nat) (args : List JsVal) : JsM Unit := fun h =>
  match h.findCtx r with
  | some c => (.ok (), { h with ctxs := natAssocSet h.ctxs r { c with args := some args } })
  | none => (.error (.typeError "dangling context reference"), h)

/-- `ctx.callback = f`. -/
def updateCtxCallback (r : Nat) (cb : JsVal) : JsM Unit := fun h =>
  match h.findCtx r with
  | some c => (.ok (), { h with ctxs := natAssocSet h.ctxs r { c with callback := cb } })
  | none => (.error (.typeError "dangling context reference"), h)

/-- `new CensorContext(parent, name)` (censor.js:63-67): allocate a fresh
context with `args` and `callback` still `undefined`; returns its
reference. -/
def allocCtx (c : CtxObj) : JsM Nat := fun h =>
  (.ok h.nextCtx,
   { h with ctxs := (h.nextCtx, c) :: h.ctxs, nextCtx := h.nextCtx + 1 })

/-- `CensorObject.typeCheck(obj, typ)` (censor.js:126-130). -/
def typeCheck (v : JsVal) (typ : String) : Except JsError Unit :=
  if jsTypeof v = typ then .ok ()
  else .error (.typeError ("Got " ++ jsTypeof v ++ " expected " ++ typ))

/-- The string content of a string value (only used after a
`typeCheck _ "string"`). -/
def asString : JsVal → String
  | .str s => s
  | _ => ""

/-- `v.hasOwnProperty(name)`. -/
def hasOwnPropertyM (v : JsVal) (name : String) : JsM Bool :=
  match v with
  | .null => throwJs (.typeError ("Cannot read properties of null reading hasOwnProperty " ++ name))
  | .undefined => throwJs (.typeError ("Cannot read properties of undefined reading hasOwnProperty " ++ name))
  | .obj r => do
      let o ← getObjM r
      pure (o.getOwn name).isSome
  | _ => pure false

/-- `Object.getOwnPropertyDescriptor(v, name)`. -/
def getOwnDescriptorM (v : JsVal) (name : String) : JsM (Option Descriptor) :=
  match v with
  | .obj r => do
      let o ← getObjM r
      pure ((o.getOwn name).map StoredProp.toDescriptor)
  | _ => pure none

/-- `Object.getPrototypeOf(v)` (host-boxed primitive prototypes are not
needed by any scenario and are elided to `null`). -/
def getPrototypeOfM (v : JsVal) : JsM JsVal :=
  match v with
  | .null => throwJs (.typeError "Cannot convert null to object")
  | .undefined => throwJs (.typeError "Cannot convert undefined to object")
  | .obj r => do
      let o ← getObjM r
      pure (match o.proto with | some p => .obj p | none => .null)
  | _ => pure .null

mutual

/-- Apply a function value: gives each defunctionalized closure the
semantics of its source counterpart (censor.js lines in the constructor
docs of `JsVal`).  Applying a non-function raises the JS `TypeError`. -/
def applyFn (env : NativeEnv) : Nat → JsVal → JsVal → List JsVal → JsM JsVal
  | 0, _, _, _ => throwJs .outOfFuel
  | fuel + 1, f, thisV, args =>
    match f with
    | .objectCtor => JsM.pure .undefined
    | .native _ _ k => JsM.pure (env k thisV args)
    | .callWrapper ctxRef handle isAsync =>
        JsM.bind (updateCtxArgs ctxRef args) fun _ =>
        JsM.bind (applyFn env fuel handle .undefined (.ctxv ctxRef :: args)) fun r =>
        if isAsync then JsM.pure (.prom (awaitV r)) else JsM.pure r
    | .callCallback target name =>
        -- this.call(name, ...args) = this.object["_CENSOR_" + name](...args)
        JsM.bind (getProp env fuel target ("_CENSOR_" ++ name)) fun g =>
        applyFn env fuel g target args
    | .attrGetWrapper ctxRef target name handles =>
        -- context.args = []; context.callback = () => originalObject.getAttr(name)
        -- return handles["get"](context)
        JsM.bind (updateCtxArgs ctxRef []) fun _ =>
        JsM.bind (updateCtxCallback ctxRef (.getAttrCallback target name)) fun _ =>
        JsM.bind (getProp env fuel handles "get") fun g =>
        applyFn env fuel g .undefined [.ctxv ctxRef]
    | .attrSetWrapper ctxRef target name handles =>
        -- context.args = [asgn]; context.callback = (a) => originalObject.setAttr(name, a)
        -- handles["set"](context, asgn)  (no return value)
        JsM.bind (updateCtxArgs ctxRef [args.headD .undefined]) fun _ =>
        JsM.bind (updateCtxCallback ctxRef (.setAttrCallback target name)) fun _ =>
        JsM.bind (getProp env fuel handles "set") fun s =>
        JsM.bind (applyFn env fuel s .undefined [.ctxv ctxRef, args.headD .undefined]) fun _ =>
        JsM.pure .undefined
    | .getAttrCallback target name =>
        -- this.object["_CENSOR_get_" + name]()
        JsM.bind (getProp env fuel target ("_CENSOR_get_" ++ name)) fun g =>
        applyFn env fuel g target []
    | .setAttrCallback target name =>
        -- this.object["_CENSOR_set_" + name](asgn)
        JsM.bind (getProp env fuel target ("_CENSOR_set_" ++ name)) fun s =>
        JsM.bind (applyFn env fuel s target [args.headD .undefined]) fun _ =>
        JsM.pure .undefined
    | .genFuncVal _ _ =>
        throwJs (.typeError "genFunc application is outside the embedded fragment")
    | .passHandle => ctxPass env fuel (args.headD .undefined)
    | .reportCtx => JsM.pure (args.headD .undefined)
    | .asyncPassIncr =>
        JsM.bind (ctxPass env fuel (args.headD .undefined)) fun r =>
        JsM.pure (.prom (.num (toNum (awaitV r) + 1)))
    | v => throwJs (.typeError (jsTypeof v ++ " is not a function"))

/-- Ordinary Get on the prototype chain of object `r`, with the original
`receiver` as `this` for accessor getters. -/
def getPropLoop (env : NativeEnv) : Nat → Nat → JsVal → String → JsM JsVal
  | 0, _, _, _ => throwJs .outOfFuel
  | fuel + 1, r, receiver, name =>
    JsM.bind (getObjM r) fun o =>
    match o.getOwn name with
    | some (.data v _ _ _) => JsM.pure v
    | some (.accessor g _ _ _) =>
        if g = .undefined then JsM.pure .undefined
        else applyFn env fuel g receiver []
    | none =>
        match o.proto with
        | some p => getPropLoop env fuel p receiver name
        | none => JsM.pure .undefined

/-- `v[name]` (ordinary Get; property reads on primitives other than
`null`/`undefined` are elided to `undefined`). -/
def getProp (env : NativeEnv) : Nat → JsVal → String → JsM JsVal
  | 0, _, _ => throwJs .outOfFuel
  | fuel + 1, v, name =>
    match v with
    | .null => throwJs (.typeError ("Cannot read properties of null reading " ++ name))
    | .undefined => throwJs (.typeError ("Cannot read properties of undefined reading " ++ name))
    | .obj r => getPropLoop env fuel r (.obj r) name
    | _ => JsM.pure .undefined

/-- Ordinary Set along the prototype chain (sloppy mode: failed writes are
silent no-ops). -/
def setPropLoop (env : NativeEnv) : Nat → Nat → Nat → String → JsVal → JsM Unit
  | 0, _, _, _, _ => throwJs .outOfFuel
  | fuel + 1, r, receiver, name, w =>
    JsM.bind (getObjM r) fun o =>
    match o.getOwn name with
    | some (.data _ wr e c) =>
        if wr then
          if r = receiver then
            modifyHeap (fun h => h.setOwn receiver name (.data w wr e c))
          else
            modifyHeap (fun h => h.setOwn receiver name (.data w true true true))
        else JsM.pure ()
    | some (.accessor _ s _ _) =>
        if s = .undefined then JsM.pure ()
        else
          JsM.bind (applyFn env fuel s (.obj receiver) [w]) fun _ =>
          JsM.pure ()
    | none =>
        match o.proto with
        | some p => setPropLoop env fuel p receiver name w
        | none => modifyHeap (fun h => h.setOwn receiver name (.data w true true true))

/-- `v[name] = w` (ordinary sloppy-mode Set). -/
def setProp (env : NativeEnv) : Nat → JsVal → String → JsVal → JsM Unit
  | 0, _, _, _ => throwJs .outOfFuel
  | fuel + 1, v, name, w =>
    match v with
    | .null => throwJs (.typeError ("Cannot set properties of null setting " ++ name))
    | .undefined => throwJs (.typeError ("Cannot set properties of undefined setting " ++ name))
    | .obj r => setPropLoop env fuel r r name w
    | _ => JsM.pure ()

/-- `CensorContext.next(...args)` (censor.js:74-76):
`return this.callback(...args)`. -/
def ctxNext (env : NativeEnv) : Nat → JsVal → List JsVal → JsM JsVal
  | 0, _, _ => throwJs .outOfFuel
  | fuel + 1, v, args =>
    match v with
    | .ctxv r =>
        JsM.bind (getCtxM r) fun c =>
        applyFn env fuel c.callback (.ctxv r) args
    | _ => throwJs (.typeError "next on a non-context value")

/-- `CensorContext.pass()` (censor.js:82-84):
`return this.next(...this.args)`. -/
def ctxPass (env : NativeEnv) : Nat → JsVal → JsM JsVal
  | 0, _ => throwJs .outOfFuel
  | fuel + 1, v =>
    match v with
    | .ctxv r =>
        JsM.bind (getCtxM r) fun c =>
        match c.args with
        | none => throwJs (.typeError "spread of undefined context args")
        | some a => ctxNext env fuel (.ctxv r) a
    | _ => throwJs (.typeError "pass on a non-context value")

end

/-- The loop of `CensorObject.getPropertyDescriptor` (censor.js:139-150):

```
var depth = 0
while (obj.constructor !== Object && depth <= maxdepth) {
  if (obj.hasOwnProperty(name)) return Object.getOwnPropertyDescriptor(obj, name)
  depth += 1
  obj = Object.getPrototypeOf(obj)
}
return null
```
-/
def getPropertyDescriptorAux (env : NativeEnv) :
    Nat → JsVal → String → Nat → Nat → JsM (Option Descriptor)
  | 0, _, _, _, _ => throwJs .outOfFuel
  | fuel + 1, v, name, maxdepth, depth =>
    JsM.bind (getProp env fuel v "constructor") fun ctor =>
    if ctor ≠ .objectCtor ∧ depth ≤ maxdepth then
      JsM.bind (hasOwnPropertyM v name) fun own =>
      if own then getOwnDescriptorM v name
      else
        JsM.bind (getPrototypeOfM v) fun p =>
        getPropertyDescriptorAux env fuel p name maxdepth (depth + 1)
    else JsM.pure none

/-- `CensorObject.getPropertyDescriptor(obj, name, maxdepth)`
(censor.js:139-150); the source's default for `maxdepth` is 10. -/
def getPropertyDescriptor (env : NativeEnv) (fuel : Nat) (v : JsVal)
    (name : String) (maxdepth : Nat) : JsM (Option Descriptor) :=
  getPropertyDescriptorAux env fuel v name maxdepth 0

/-- The instance engine: a `CensorObject` (censor.js:113) holds only the
reference to the censored target. -/
structure CensorObject where
  object : JsVal
deriving DecidableEq, Repr

/-- `new CensorObject(object)` (censor.js:156-159). -/
def mkCensorObject (object : JsVal) : Except JsError CensorObject := do
  typeCheck object "object"
  .ok ⟨object⟩

/-- `CensorObject.whenCall(name, handle)` (censor.js:197-223), translated
line by line.  `nameV` is an arbitrary value, as in the source (the
first `typeCheck` constrains it). -/
def whenCall (env : NativeEnv) (fuel : Nat) (self : CensorObject)
    (nameV : JsVal) (handle : JsVal) : JsM CensorObject := do
  liftEx (typeCheck nameV "string")
  let name := asString nameV
  let m ← getProp env fuel self.object name
  liftEx (typeCheck m "function")
  liftEx (typeCheck handle "function")
  let own ← hasOwnPropertyM self.object ("_CENSOR_" ++ name)
  if own then pure () else do
    -- this.object["_CENSOR_" + name] = this.object[name]  // Override old hooks
    let mv ← getProp env fuel self.object name
    setProp env fuel self.object ("_CENSOR_" ++ name) mv
  -- var ctx = new CensorContext(this, name)
  let ctxRef ← allocCtx { name := name, parentObj := self.object, args := none, callback := .undefined }
  -- ctx.callback = (...args) => { return this.call(name, ...args) }
  updateCtxCallback ctxRef (.callCallback self.object name)
  -- `if (handle[Symbol.toStringTag] === "AsyncFunction")` picks the async
  -- or the plain wrapper; the chosen branch is the wrapper's flag
  let isAsync := toStringTag handle == JsVal.str "AsyncFunction"
  -- this.object[name] = f
  setProp env fuel self.object name (.callWrapper ctxRef handle isAsync)
  pure self

/-- `Object.defineProperty(target, name, desc)` as invoked by `whenAttr`
(censor.js:263). -/
def definePropertyM (target : JsVal) (name : String) (d : Descriptor) : JsM Unit :=
  match target with
  | .obj r => fun h =>
      match defineProperty h r name d with
      | .ok h' => (.ok (), h')
      | .error e => (.error e, h)
  | _ => throwJs (.typeError "defineProperty called on non-object")

/-- `CensorObject.whenAttr(name, handles)` (censor.js:235-265), translated
line by line.  When the descriptor lookup yields `null`, the source's
`description["set"]` read raises the JS `TypeError` on the spot. -/
def whenAttr (env : NativeEnv) (fuel : Nat) (self : CensorObject)
    (nameV : JsVal) (handles : JsVal) : JsM CensorObject := do
  liftEx (typeCheck nameV "string")
  liftEx (typeCheck handles "object")
  let name := asString nameV
  let dOpt ← getPropertyDescriptor env fuel self.object name 10
  match dOpt with
  | none => throwJs (.typeError "Cannot read properties of null reading set")
  | some d => do
      -- this.object["_CENSOR_set_" + name] = description["set"]
      setProp env fuel self.object ("_CENSOR_set_" ++ name) (d.set.getD .undefined)
      -- this.object["_CENSOR_get_" + name] = description["get"]
      setProp env fuel self.object ("_CENSOR_get_" ++ name) (d.get.getD .undefined)
      -- var desc = {}; var context = new CensorContext(this, name)
      let ctxRef ← allocCtx { name := name, parentObj := self.object, args := none, callback := .undefined }
      let hasG ← hasOwnPropertyM handles "get"
      let hasS ← hasOwnPropertyM handles "set"
      let desc : Descriptor :=
        { Descriptor.empty with
          get := if hasG then some (.attrGetWrapper ctxRef self.object name handles) else none,
          set := if hasS then some (.attrSetWrapper ctxRef self.object name handles) else none }
      definePropertyM self.object name desc
      pure self

/-- The class template: a `CensorClass` (censor.js:316) records the
original constructor and three name-keyed handle registries. -/
structure CensorClass where
  cls : JsVal
  name : String
  eventHandles : List (String × JsVal)
  callHandles : List (String × JsVal)
  attrHandles : List (String × JsVal)
deriving DecidableEq, Repr

/-- `new CensorClass(cls, accessName, implementOn)` (censor.js:334-344):
type-check the constructor, resolve the public name, start with empty
registries, and unless `implementOn` is `null` install the generated
replacement constructor on it. -/
def mkCensorClass (env : NativeEnv) (fuel : Nat) (cls : JsVal)
    (accessName : Option String) (implementOn : JsVal) : JsM CensorClass := do
  liftEx (typeCheck cls "function")
  let nm := accessName.getD (fnName cls)
  let c : CensorClass := ⟨cls, nm, [], [], []⟩
  if implementOn = JsVal.null then pure () else
    setProp env fuel implementOn nm (.genFuncVal cls nm)
  pure c

/-- The entry dispatcher's result: which engine `censor` produced. -/
inductive CensorResult where
  | instanceEngine (c : CensorObject)
  | classTemplate (c : CensorClass)
deriving DecidableEq, Repr

/-- `censor(obj)` (censor.js:403-411) with no extra options, so the
`CensorClass` branch uses `accessName = null` and `implementOn = window`:

```
if (typeof obj === "object") return new CensorObject(obj)
else if (obj instanceof Object) return new CensorClass(obj)
else throw new TypeError("Can't install censor on " + typeof obj)
```
-/
def censor (env : NativeEnv) (fuel : Nat) (window : JsVal) (v : JsVal) :
    JsM CensorResult := do
  if jsTypeof v = "object" then do
    let c ← liftEx (mkCensorObject v)
    pure (.instanceEngine c)
  else if jsInstanceOfObject v then do
    let c ← mkCensorClass env fuel v none window
    pure (.classTemplate c)
  else
    throwJs (.typeError ("Cant install censor on " ++ jsTypeof v))

/-- An ordinary method call `target[name](...args)` as external code would
perform it: Get the member, then apply it with `this = target`. -/
def invokeMember (env : NativeEnv) (fuel : Nat) (target : JsVal)
    (name : String) (args : List JsVal) : JsM JsVal := do
  let f ← getProp env fuel target name
  applyFn env fuel f target args

/-- Run a `JsM` computation on an initial heap. -/
def runJs {α : Type} (m : JsM α) (h : Heap) : Except JsError α × Heap := m h

/-! ## Test scenarios

Concrete heaps used by the theorems. Object references: `0` is
`Object.prototype` (its `constructor` is the built-in `Object`), `1` is a
class prototype `C.prototype` (its `constructor` is the class constructor,
so `getPropertyDescriptor`'s walk does not stop there), `2` the censored
target, `3` the global `window`, `4` and `5` handle-record objects passed
to `whenAttr`. -/

/-- `Object.prototype`: its `constructor` is the built-in `Object`. -/
def objectProto : JsObject :=
  ⟨[("constructor", .data .objectCtor true false true)], none⟩

/-- `C.prototype` for a user class `C`. -/
def cProto : JsObject :=
  ⟨[("constructor", .data (.native "C" false 0) true false true)], some 0⟩

/-- The original callable member of the call-interception scenarios. -/
def mNative : JsVal := .native "m" false 1

/-- The original async member of the async scenario. -/
def mAsyncNative : JsVal := .native "m" true 1

/-- Original accessor pair of the attribute scenarios. -/
def g0 : JsVal := .native "g0" false 2

def s0 : JsVal := .native "s0" false 3

/-- Call-interception heap with the member slot `m` holding `mv`:
a class instance (ref 2) owning the data property `m`. -/
def callHeapWith (mv : JsVal) : Heap :=
  ⟨[(0, objectProto), (1, cProto),
    (2, ⟨[("m", .data mv true true true)], some 1⟩)], [], 0⟩

/-- The standard call-interception heap (`m` is the callable original). -/
def callHeap : Heap := callHeapWith mNative

/-- The async call-interception heap (`m` is an async native). -/
def asyncCallHeap : Heap := callHeapWith mAsyncNative

/-- A handle record `{ get: passHandle, set: passHandle }` at ref 4 and a
second one at ref 5, over a target (ref 2) owning a configurable accessor
property `a`. -/
def ownAccHeap : Heap :=
  ⟨[(0, objectProto), (1, cProto),
    (2, ⟨[("a", .accessor g0 s0 true true)], some 1⟩),
    (4, ⟨[("get", .data .passHandle true true true),
          ("set", .data .passHandle true true true)], some 0⟩),
    (5, ⟨[("get", .data .passHandle true true true),
          ("set", .data .passHandle true true true)], some 0⟩)], [], 0⟩

/-- A get-only handle record (ref 4) over a target (ref 2) whose accessor
`a` lives on the class prototype (ref 1), not the instance. -/
def protoAccHeap : Heap :=
  ⟨[(0, objectProto),
    (1, ⟨[("constructor", .data (.native "C" false 0) true false true),
          ("a", .accessor g0 s0 true true)], some 0⟩),
    (2, ⟨[], some 1⟩),
    (4, ⟨[("get", .data .passHandle true true true)], some 0⟩)], [], 0⟩

/-- A get-only handle record (ref 4) over a target (ref 2) owning the
configurable accessor `a` itself. -/
def ownAccGetOnlyHeap : Heap :=
  ⟨[(0, objectProto), (1, cProto),
    (2, ⟨[("a", .accessor g0 s0 true true)], some 1⟩),
    (4, ⟨[("get", .data .passHandle true true true)], some 0⟩)], [], 0⟩

/-- A class instance (ref 2) with no property `x` anywhere on its chain,
plus a handle record (ref 4). -/
def noDescHeap : Heap :=
  ⟨[(0, objectProto), (1, cProto),
    (2, ⟨[], some 1⟩),
    (4, ⟨[("get", .data .passHandle true true true),
          ("set", .data .passHandle true true true)], some 0⟩)], [], 0⟩

/-- One level of a deep prototype chain: `constructor` is the class
constructor `K` (never the built-in `Object`), `a` present only when
`hasA`. -/
def chainLevel (hasA : Bool) (proto : Nat) : JsObject :=
  ⟨(if hasA then [("a", .accessor g0 s0 true true)] else [])
     ++ [("constructor", .data (.native "K" false 9) true false true)],
   some proto⟩

/-- A prototype chain of `len` levels at refs `10, 11, …`, with the
accessor `a` owned only by level `aLevel`; the last level's prototype is
`Object.prototype` (ref 0). -/
def chainHeap (aLevel len : Nat) : Heap :=
  ⟨(0, objectProto) ::
     (List.range len).map
       (fun i => (10 + i, chainLevel (i = aLevel) (if i + 1 < len then 10 + i + 1 else 0))),
   [], 0⟩

/-- A plain object (ref 2, prototype directly `Object.prototype`) owning
the accessor `a`, plus a handle record (ref 4). -/
def plainObjHeap : Heap :=
  ⟨[(0, objectProto),
    (2, ⟨[("a", .accessor g0 s0 true true)], some 0⟩),
    (4, ⟨[("get", .data .passHandle true true true)], some 0⟩)], [], 0⟩

/-- The dispatcher heap: just `Object.prototype` and a `window` object
(ref 3). -/
def dispatchHeap : Heap :=
  ⟨[(0, objectProto), (3, ⟨[], some 0⟩)], [], 0⟩

/-- A closed native environment for witnesses: native `1` returns the
number of received arguments plus `this`-tag, everything else `undefined`. -/
def witnessEnv : NativeEnv := fun k _ args =>
  if k = 1 then .num (args.length) else .undefined

/-! ## Theorems -/

/-- Unfolding the monadic bind against a heap. -/
theorem JsM.run_bind {α β : Type} (m : JsM α) (f : α → JsM β) (h : Heap) :
    (m >>= f) h
      = match m h with
        | (.ok a, h') => f a h'
        | (.error e, h') => (.error e, h') := rfl

/-- Unfolding the monadic pure against a heap. -/
theorem JsM.run_pure {α : Type} (a : α) (h : Heap) :
    (pure a : JsM α) h = (.ok a, h) := rfl

/-- Native environment for the async-propagation scenario: the member `m`
(id 1) resolves to `n`. -/
def asyncEnv (n : Int) : NativeEnv := fun k _ _ =>
  if k = 1 then .prom (.num n) else .undefined

/-- C2: for the target owning the callable member `m` (any native
behavior `env`), registering `whenCall("m", passHandle)` — a handle that
unconditionally calls `pass()` with its received arguments and returns the
result — and invoking the wrapped member returns the same result as
calling the unwrapped member with the same arguments, for every argument
list. -/
theorem whenCall_pass_fidelity (env : NativeEnv) (args : List JsVal) :
    (runJs (JsM.bind (whenCall env 40 ⟨.obj 2⟩ (.str "m") .passHandle)
        (fun c => invokeMember env 40 c.object "m" args)) callHeap).1
      = Except.ok (env 1 (.obj 2) args)
    ∧ (runJs (invokeMember env 40 (.obj 2) "m" args) callHeap).1
      = Except.ok (env 1 (.obj 2) args) :=
  ⟨rfl, rfl⟩

/-- C1: after `whenCall("m", h1)` and then `whenCall("m", passHandle)` on
the same name, the shadow original `_CENSOR_m` still archives the member
as it was before any interception (the native `m`, not h1's wrapper), and
invoking the member — whose installed handle is the pass-through — returns
exactly what the member returned before any interception. -/
theorem whenCall_capture_idempotent (env : NativeEnv) (h1 : JsVal)
    (hh1 : jsTypeof h1 = "function") (args : List JsVal) :
    ((runJs (JsM.bind (whenCall env 40 ⟨.obj 2⟩ (.str "m") h1)
        (fun c => whenCall env 40 c (.str "m") .passHandle)) callHeap).2.findObj 2).map
        (fun o => o.getOwn "_CENSOR_m")
      = some (some (.data mNative true true true))
    ∧ (runJs (JsM.bind (whenCall env 40 ⟨.obj 2⟩ (.str "m") h1)
        (fun c => JsM.bind (whenCall env 40 c (.str "m") .passHandle)
        (fun c2 => invokeMember env 40 c2.object "m" args))) callHeap).1
      = Except.ok (env 1 (.obj 2) args)
    ∧ (runJs (invokeMember env 40 (.obj 2) "m" args) callHeap).1
      = Except.ok (env 1 (.obj 2) args) := by
  refine ⟨?_, ?_, rfl⟩ <;>
    cases h1 <;> first | rfl | (exfalso; simp [jsTypeof] at hh1)

/-- C1 witness: the idempotent-capture theorem at the concrete first
handle `reportCtx` and argument list `[7]`. -/
theorem whenCall_capture_idempotent_witness :
    jsTypeof JsVal.reportCtx = "function"
    ∧ (runJs (JsM.bind (whenCall witnessEnv 40 ⟨.obj 2⟩ (.str "m") .reportCtx)
        (fun c => JsM.bind (whenCall witnessEnv 40 c (.str "m") .passHandle)
        (fun c2 => invokeMember witnessEnv 40 c2.object "m" [.num 7]))) callHeap).1
      = Except.ok (witnessEnv 1 (.obj 2) [.num 7]) :=
  ⟨rfl, (whenCall_capture_idempotent witnessEnv .reportCtx rfl [.num 7]).2.1⟩

/-- C7: wrapping the async member `m` (resolving to `n`) with the async
handle `asyncPassIncr` installs a wrapper that is itself an async function,
and a caller awaiting the wrapped member observes the handle's transformed
resolution `n + 1`, not the raw original resolution `n`. -/
theorem whenCall_async_propagation (n : Int) :
    ((runJs (whenCall (asyncEnv n) 40 ⟨.obj 2⟩ (.str "m") .asyncPassIncr)
        asyncCallHeap).2.findObj 2).map (fun o => o.getOwn "m")
      = some (some (.data (.callWrapper 0 .asyncPassIncr true) true true true))
    ∧ (runJs (JsM.bind (whenCall (asyncEnv n) 40 ⟨.obj 2⟩ (.str "m") .asyncPassIncr)
        (fun c => invokeMember (asyncEnv n) 40 c.object "m" [])) asyncCallHeap).1
      = Except.ok (.prom (.num (n + 1)))
    ∧ awaitV (.prom (.num (n + 1))) = .num (n + 1)
    ∧ awaitV (asyncEnv n 1 (.obj 2) []) = .num n
    ∧ JsVal.num (n + 1) ≠ .num n := by
  refine ⟨rfl, rfl, rfl, rfl, ?_⟩
  intro hEq
  simp only [JsVal.num.injEq] at hEq
  omega

/-- C5 counterexample: the contexts delivered to the handle in two
invocations of the same wrapped member are the SAME context object
(reference 0, allocated at registration), not distinct objects: the
`reportCtx` handle returns its received context, and both invocations
return `ctxv 0`. -/
theorem whenCall_context_shared_counterexample :
    (runJs (JsM.bind (whenCall witnessEnv 40 ⟨.obj 2⟩ (.str "m") .reportCtx)
        (fun c => JsM.bind (invokeMember witnessEnv 40 c.object "m" [.num 1])
        (fun r1 => JsM.bind (invokeMember witnessEnv 40 c.object "m" [.num 2])
        (fun r2 => JsM.pure (r1, r2))))) callHeap).1
      = Except.ok (.ctxv 0, .ctxv 0) := rfl

/-- C5 amended: the call-interception context is allocated once per
`whenCall` registration and shared by every invocation of the installed
wrapper; each invocation overwrites the shared `args` field, so after a
second delivery the context holds the second argument list (the first
handle's view is overwritten). -/
theorem whenCall_context_per_registration (args1 args2 : List JsVal) :
    (runJs (JsM.bind (whenCall witnessEnv 40 ⟨.obj 2⟩ (.str "m") .reportCtx)
        (fun c => JsM.bind (invokeMember witnessEnv 40 c.object "m" args1)
        (fun r1 => JsM.bind (invokeMember witnessEnv 40 c.object "m" args2)
        (fun r2 => JsM.pure (r1, r2))))) callHeap).1
      = Except.ok (.ctxv 0, .ctxv 0)
    ∧ (runJs (JsM.bind (whenCall witnessEnv 40 ⟨.obj 2⟩ (.str "m") .reportCtx)
        (fun c => JsM.bind (invokeMember witnessEnv 40 c.object "m" args1)
        (fun _ => invokeMember witnessEnv 40 c.object "m" args2))) callHeap).2.findCtx 0
      = some ⟨"m", .obj 2, some args2, .callCallback (.obj 2) "m"⟩ :=
  ⟨rfl, rfl⟩

/-- C3 counterexample: `whenAttr` archives unconditionally — after a first
registration the shadow archive holds the original getter `g0`, but a
second registration on the same name overwrites it with the first
registration's wrapper getter. -/
theorem whenAttr_archive_overwritten_counterexample :
    ((runJs (whenAttr witnessEnv 40 ⟨.obj 2⟩ (.str "a") (.obj 4))
        ownAccHeap).2.findObj 2).map (fun o => o.getOwn "_CENSOR_get_a")
      = some (some (.data g0 true true true))
    ∧ ((runJs (JsM.bind (whenAttr witnessEnv 40 ⟨.obj 2⟩ (.str "a") (.obj 4))
        (fun c => whenAttr witnessEnv 40 c (.str "a") (.obj 5)))
        ownAccHeap).2.findObj 2).map (fun o => o.getOwn "_CENSOR_get_a")
      = some (some (.data (.attrGetWrapper 0 (.obj 2) "a" (.obj 4)) true true true)) :=
  ⟨rfl, rfl⟩

/-- C3 amended: shadow-archive capture for attribute interception is NOT
idempotent: the second `whenAttr` overwrites both shadow entries with the
accessors discovered at that moment — the first registration's wrappers —
so the second registration's pass-through reaches the first wrapper (which
now re-enters itself through the overwritten archive and never reaches the
original accessor: a read of the attribute exhausts any fuel). -/
theorem whenAttr_archive_not_idempotent :
    ((runJs (JsM.bind (whenAttr witnessEnv 40 ⟨.obj 2⟩ (.str "a") (.obj 4))
        (fun c => whenAttr witnessEnv 40 c (.str "a") (.obj 5)))
        ownAccHeap).2.findObj 2).map
        (fun o => (o.getOwn "_CENSOR_get_a", o.getOwn "_CENSOR_set_a"))
      = some
          (some (.data (.attrGetWrapper 0 (.obj 2) "a" (.obj 4)) true true true),
           some (.data (.attrSetWrapper 0 (.obj 2) "a" (.obj 4)) true true true))
    ∧ (runJs (getProp witnessEnv 12 (.obj 2) "a")
        (runJs (JsM.bind (whenAttr witnessEnv 40 ⟨.obj 2⟩ (.str "a") (.obj 4))
          (fun c => whenAttr witnessEnv 40 c (.str "a") (.obj 5))) ownAccHeap).2).1
      = Except.error .outOfFuel :=
  ⟨rfl, rfl⟩

/-- C6 counterexample: when the bounded hierarchy walk finds no descriptor,
`whenAttr` registration does NOT complete — the source's
`description["set"]` read on the `null` lookup result raises a `TypeError`
at registration time. -/
theorem whenAttr_missing_descriptor_counterexample :
    (runJs (whenAttr witnessEnv 40 ⟨.obj 2⟩ (.str "x") (.obj 4)) noDescHeap).1
      = Except.error (.typeError "Cannot read properties of null reading set") := rfl

/-- C6 amended: when the bounded hierarchy walk yields no descriptor, the
lookup returns none and `whenAttr` itself fails synchronously with a JS
`TypeError` (reading `set` of the null result); no shadow placeholder is
stored and no accessor is installed — the heap is left unchanged. -/
theorem whenAttr_missing_descriptor_fails :
    (runJs (getPropertyDescriptor witnessEnv 40 (.obj 2) "x" 10) noDescHeap).1
      = Except.ok none
    ∧ runJs (whenAttr witnessEnv 40 ⟨.obj 2⟩ (.str "x") (.obj 4)) noDescHeap
      = (Except.error (.typeError "Cannot read properties of null reading set"),
         noDescHeap) :=
  ⟨rfl, rfl⟩

/-- C8 counterexample: the walk examines MORE than 10 levels — on a chain
whose only descriptor for `a` sits at depth index 10 (the eleventh level),
the lookup still finds it, where the claim's 10-level bound would yield
none. -/
theorem getPropertyDescriptor_depth_counterexample :
    (runJs (getPropertyDescriptor witnessEnv 40 (.obj 10) "a" 10) (chainHeap 10 12)).1
      = Except.ok (some ⟨none, none, some g0, some s0, some true, some true⟩) := rfl

/-- C8 amended: the walk starts at the target, stops as soon as the
current level's `constructor` is the built-in `Object` (so a plain object
yields none even when it owns the descriptor), and otherwise examines the
levels at depth counter 0 through `maxdepth` = 10 INCLUSIVE — i.e. up to
11 levels: a descriptor at depth index 10 is found, one at depth index 11
is not; within the bound the first own descriptor found is returned. -/
theorem getPropertyDescriptor_bounds :
    (runJs (getPropertyDescriptor witnessEnv 40 (.obj 10) "a" 10) (chainHeap 10 12)).1
      = Except.ok (some ⟨none, none, some g0, some s0, some true, some true⟩)
    ∧ (runJs (getPropertyDescriptor witnessEnv 40 (.obj 10) "a" 10) (chainHeap 11 13)).1
      = Except.ok none
    ∧ (runJs (getPropertyDescriptor witnessEnv 40 (.obj 2) "a" 10) plainObjHeap).1
      = Except.ok none
    ∧ (runJs (getPropertyDescriptor witnessEnv 40 (.obj 2) "a" 10) ownAccHeap).1
      = Except.ok (some ⟨none, none, some g0, some s0, some true, some true⟩) :=
  ⟨rfl, rfl, rfl, rfl⟩

/-- C10 counterexample: on a target that itself OWNS a configurable
accessor `a`, `whenAttr` with a get-only handle record redefines `a` by
descriptor merge — the resulting own property still carries the original
setter `s0`, not "no setter at all". -/
theorem whenAttr_getonly_keeps_setter_counterexample :
    ((runJs (whenAttr witnessEnv 40 ⟨.obj 2⟩ (.str "a") (.obj 4))
        ownAccGetOnlyHeap).2.findObj 2).map (fun o => o.getOwn "a")
      = some (some (.accessor (.attrGetWrapper 0 (.obj 2) "a" (.obj 4)) s0 true true)) := rfl

/-- C10 amended: when the discovered accessor lives on the prototype (the
common case), `defineProperty` creates a fresh own property with only the
supplied entries — a get-only record yields an own accessor with an
`undefined` setter, and a subsequent plain assignment is a silent no-op
that never reaches the original setter; but when the target already owns a
configurable accessor at that name, `defineProperty` merges and the
original setter survives. -/
theorem whenAttr_getonly_defineProperty :
    ((runJs (whenAttr witnessEnv 40 ⟨.obj 2⟩ (.str "a") (.obj 4))
        protoAccHeap).2.findObj 2).map (fun o => o.getOwn "a")
      = some (some (.accessor (.attrGetWrapper 0 (.obj 2) "a" (.obj 4)) .undefined false false))
    ∧ runJs (setProp witnessEnv 40 (.obj 2) "a" (.num 9))
        (runJs (whenAttr witnessEnv 40 ⟨.obj 2⟩ (.str "a") (.obj 4)) protoAccHeap).2
      = (Except.ok (),
         (runJs (whenAttr witnessEnv 40 ⟨.obj 2⟩ (.str "a") (.obj 4)) protoAccHeap).2)
    ∧ ((runJs (whenAttr witnessEnv 40 ⟨.obj 2⟩ (.str "a") (.obj 4))
        ownAccGetOnlyHeap).2.findObj 2).map (fun o => o.getOwn "a")
      = some (some (.accessor (.attrGetWrapper 0 (.obj 2) "a" (.obj 4)) s0 true true)) :=
  ⟨rfl, rfl, rfl⟩

/-- C4 counterexample: `censor(null)` does NOT fail — `typeof null` is
`"object"`, so the dispatcher returns an Instance Engine wrapping `null`
(and the `CensorObject` constructor's own type check passes too). -/
theorem censor_null_counterexample :
    runJs (censor witnessEnv 40 (.obj 3) .null) dispatchHeap
      = (Except.ok (.instanceEngine ⟨.null⟩), dispatchHeap) := rfl

/-- C4 amended: the dispatcher classifies by `typeof`: every value whose
`typeof` is `"object"` — including `null` — yields an Instance Engine; a
constructor-shaped callable yields a Class Template (installing the
generated constructor on `window`); a value that is neither `object`-typed
nor an `Object` instance fails synchronously with a `TypeError`. -/
theorem censor_classification (env : NativeEnv) (v : JsVal) :
    (jsTypeof v = "object" →
       runJs (censor env 40 (.obj 3) v) dispatchHeap
         = (Except.ok (.instanceEngine ⟨v⟩), dispatchHeap))
    ∧ (∀ (isA : Bool) (k : Nat),
       runJs (censor env 40 (.obj 3) (.native "C" isA k)) dispatchHeap
         = (Except.ok (.classTemplate ⟨.native "C" isA k, "C", [], [], []⟩),
            dispatchHeap.setOwn 3 "C" (.data (.genFuncVal (.native "C" isA k) "C") true true true)))
    ∧ (jsTypeof v ≠ "object" → jsInstanceOfObject v = false →
       runJs (censor env 40 (.obj 3) v) dispatchHeap
         = (Except.error (.typeError ("Cant install censor on " ++ jsTypeof v)),
            dispatchHeap)) := by
  refine ⟨?_, ?_, ?_⟩
  · intro hv
    cases v <;> first | rfl | (exfalso; simp [jsTypeof] at hv)
  · intro isA k
    rfl
  · intro hv hi
    cases v <;>
      first
        | rfl
        | (exfalso; exact hv rfl)
        | (exfalso; simp [jsInstanceOfObject] at hi)

/-- C4 witness: the amended classification at the concrete inputs
`JsVal.obj 0` (an object) and `JsVal.str "s"` (neither object-typed nor an
`Object` instance). -/
theorem censor_classification_witness :
    (jsTypeof (JsVal.obj 0) = "object"
     ∧ runJs (censor witnessEnv 40 (.obj 3) (.obj 0)) dispatchHeap
         = (Except.ok (.instanceEngine ⟨.obj 0⟩), dispatchHeap))
    ∧ (jsTypeof (JsVal.str "s") ≠ "object"
     ∧ jsInstanceOfObject (JsVal.str "s") = false
     ∧ runJs (censor witnessEnv 40 (.obj 3) (.str "s")) dispatchHeap
         = (Except.error (.typeError ("Cant install censor on " ++ jsTypeof (JsVal.str "s"))),
            dispatchHeap)) :=
  ⟨⟨rfl, (censor_classification witnessEnv (.obj 0)).1 rfl⟩,
   ⟨by decide, rfl,
    (censor_classification witnessEnv (.str "s")).2.2 (by decide) rfl⟩⟩

/-- C9: each of `whenCall`'s three synchronous type errors — name not a
string (on ANY heap, engine and fuel), target's member not callable, and
handle not callable — is raised before any mutation: the error pair
carries the initial heap unchanged, so no shadow archive entry is created
and the member slot is not replaced. -/
theorem whenCall_typecheck_atomic (env : NativeEnv) :
    (∀ (h : Heap) (self : CensorObject) (nv handle : JsVal) (fuel : Nat),
       jsTypeof nv ≠ "string" →
       runJs (whenCall env fuel self nv handle) h
         = (Except.error (.typeError ("Got " ++ jsTypeof nv ++ " expected " ++ "string")), h))
    ∧ (∀ (mv handle : JsVal), jsTypeof mv ≠ "function" →
       runJs (whenCall env 40 ⟨.obj 2⟩ (.str "m") handle) (callHeapWith mv)
         = (Except.error (.typeError ("Got " ++ jsTypeof mv ++ " expected function")),
            callHeapWith mv))
    ∧ (∀ (hv : JsVal), jsTypeof hv ≠ "function" →
       runJs (whenCall env 40 ⟨.obj 2⟩ (.str "m") hv) callHeap
         = (Except.error (.typeError ("Got " ++ jsTypeof hv ++ " expected function")),
            callHeap)) := by
  refine ⟨?_, ?_, ?_⟩
  · intro h self nv handle fuel hne
    simp [whenCall, runJs, liftEx, typeCheck, hne, JsM.run_bind]
  · intro mv handle hne
    cases mv <;> first | rfl | (exfalso; exact hne rfl)
  · intro hv hne
    cases hv <;> first | rfl | (exfalso; exact hne rfl)

/-- C9 witness: the three type-error cases at concrete offending inputs
(`1` as name, `true` in the member slot, `null` as handle). -/
theorem whenCall_typecheck_atomic_witness :
    (jsTypeof (JsVal.num 1) ≠ "string"
     ∧ runJs (whenCall witnessEnv 7 ⟨.obj 2⟩ (.num 1) .passHandle) callHeap
         = (Except.error (.typeError ("Got " ++ jsTypeof (JsVal.num 1) ++ " expected " ++ "string")),
            callHeap))
    ∧ (jsTypeof (JsVal.bool true) ≠ "function"
     ∧ runJs (whenCall witnessEnv 40 ⟨.obj 2⟩ (.str "m") .passHandle)
           (callHeapWith (.bool true))
         = (Except.error (.typeError ("Got " ++ jsTypeof (JsVal.bool true) ++ " expected function")),
            callHeapWith (.bool true)))
    ∧ (jsTypeof JsVal.null ≠ "function"
     ∧ runJs (whenCall witnessEnv 40 ⟨.obj 2⟩ (.str "m") .null) callHeap
         = (Except.error (.typeError ("Got " ++ jsTypeof JsVal.null ++ " expected function")),
            callHeap)) :=
  ⟨⟨by decide,
    (whenCall_typecheck_atomic witnessEnv).1 callHeap ⟨.obj 2⟩ (.num 1) .passHandle 7 (by decide)⟩,
   ⟨by decide,
    (whenCall_typecheck_atomic witnessEnv).2.1 (.bool true) .passHandle (by decide)⟩,
   ⟨by decide,
    (whenCall_typecheck_atomic witnessEnv).2.2 .null (by decide)⟩⟩
